import Mathlib

/-!
Verification of the CommitPilot repository (auto_commit.py, aitunnel_support.py,
openai_support.py) against its natural-language specification.

The Python sources are shallowly embedded below.  Python strings are Lean
`String`s; the Python primitives the code uses (`str.strip`, `str.split('\n')`,
`str.startswith`, `str.lower`, `int(...)`, slicing `s[:n]`, `str.replace`) are
given executable Lean counterparts (`pyStrip`, `pySplit`, `pyStartsWith`,
`pyLower`, `pyInt`, `pyTake`, `pyRemoveEndMarkers`) whose semantics follow the
Python ones on the ASCII inputs the program manipulates.  Fallible and
effectful adapter code is modelled as explicit outcome values (`PreOutcome`):
returning a message, reaching the network call with a given request body,
exiting the process, or letting an exception escape.
-/

/-- Python `str.strip()` whitespace set (ASCII). -/
def pyIsSpace (c : Char) : Bool :=
  c = ' ' || c = '\t' || c = '\n' || c = '\r' || c = '\x0b' || c = '\x0c'

/-- Python `l.strip()` on a list of characters: drop whitespace at both ends. -/
def pyStripList (l : List Char) : List Char :=
  ((l.dropWhile pyIsSpace).reverse.dropWhile pyIsSpace).reverse

/-- Python `s.strip()`. -/
def pyStrip (s : String) : String :=
  String.mk (pyStripList s.data)

/-- Auxiliary for `pySplit`: split a character list at every occurrence of `c`.
`[]` maps to `[[]]`, matching Python `"".split('\n') = [""]`. -/
def pySplitAux (c : Char) : List Char → List (List Char)
  | [] => [[]]
  | x :: xs =>
    match pySplitAux c xs with
    | [] => [[]]
    | y :: ys => if x = c then [] :: y :: ys else (x :: y) :: ys

/-- Python `s.split(c)` for a single-character separator. -/
def pySplit (c : Char) (s : String) : List String :=
  (pySplitAux c s.data).map String.mk

/-- Digit-run parser used by `pyInt`: all characters must be ASCII digits and
the run must be non-empty. -/
def parseDigits (l : List Char) : Option Nat :=
  if l ≠ [] ∧ l.all (·.isDigit) then
    some (l.foldl (fun acc c => 10 * acc + (c.toNat - 48)) 0)
  else
    none

/-- Python `int(s)` on decimal literals: surrounding whitespace, an optional
sign, then at least one digit; anything else raises `ValueError`, modelled as
`none`. -/
def pyInt (s : String) : Option Int :=
  match pyStripList s.data with
  | '+' :: rest => (parseDigits rest).map Int.ofNat
  | '-' :: rest => (parseDigits rest).map (fun n => -(n : Int))
  | rest => (parseDigits rest).map Int.ofNat

/-- Python slice `s[:m]` for an `int` bound `m` (negative bounds count from the
end, clamped at zero). -/
def pyTake (s : String) (m : Int) : String :=
  if 0 ≤ m then String.mk (s.data.take m.toNat)
  else String.mk (s.data.take ((s.data.length : Int) + m).toNat)

/-- Python `s.lower()` (ASCII case folding, which covers the provider names the
dispatcher compares). -/
def pyLower (s : String) : String :=
  String.mk (s.data.map Char.toLower)

/-- Fuel-indexed worker for `pyRemoveEndMarkers`: removes the non-overlapping
occurrences of `</s>`, left to right.  The fuel argument makes the recursion
structural; fuel equal to the list length always suffices because every step
consumes at least one character. -/
def removeEndMarkerFuel : Nat → List Char → List Char
  | 0, l => l
  | _ + 1, [] => []
  | n + 1, x :: xs =>
    if x = '<' ∧ List.isPrefixOf ['/', 's', '>'] xs then
      removeEndMarkerFuel n (xs.drop 3)
    else
      x :: removeEndMarkerFuel n xs

/-- Python `s.replace("</s>", "")` as used by the huggingface adapter. -/
def pyRemoveEndMarkers (s : String) : String :=
  String.mk (removeEndMarkerFuel s.data.length s.data)

/-- `DEFAULT_COMMIT_MESSAGE` — identical constant in all three source files. -/
def DEFAULT_COMMIT_MESSAGE : String := "chore: automatic changes commit"

/-- `AITUNNEL_BASE_URL` from aitunnel_support.py. -/
def AITUNNEL_BASE_URL : String := "https://api.aitunnel.ru/v1/"

/-- `COMMIT_PREFIXES` — the same frozenset literal appears in all three source
files; membership order is irrelevant because the code only runs `any` over
it. -/
def COMMIT_PREFIXES : List String :=
  ["feat", "fix", "docs", "style", "refactor", "test", "chore"]

/-- Python `s.startswith(p)`. -/
def pyStartsWith (s p : String) : Bool :=
  List.isPrefixOf p.data s.data

/-- `any(line_stripped.startswith(prefix) for prefix in COMMIT_PREFIXES)`. -/
def startsWithCommitType (s : String) : Bool :=
  COMMIT_PREFIXES.any (fun p => pyStartsWith s p)

/-- `line_stripped.startswith('```')` — the code-fence test of the aitunnel and
openai adapters. -/
def isFence (s : String) : Bool :=
  pyStartsWith s "```"

/-- First loop of the aitunnel/openai normalization: first line whose stripped
form starts with a commit type, returned stripped. -/
def firstTypeLine (lines : List String) : Option String :=
  lines.findSome? (fun line =>
    if startsWithCommitType (pyStrip line) then some (pyStrip line) else none)

/-- Second loop of the aitunnel/openai normalization: first line that is
non-empty and not a code fence once stripped, returned stripped. -/
def firstContentLine (lines : List String) : Option String :=
  lines.findSome? (fun line =>
    if pyStrip line ≠ "" ∧ isFence (pyStrip line) = false then
      some (pyStrip line)
    else none)

/-- First loop of the huggingface normalization
(`if line and any(line.startswith(prefix) ...)`), which also checks
non-emptiness of the stripped line. -/
def hf_firstTypeLine (lines : List String) : Option String :=
  lines.findSome? (fun line =>
    if pyStrip line ≠ "" ∧ startsWithCommitType (pyStrip line) then
      some (pyStrip line)
    else none)

/-- Second loop of the huggingface normalization: first non-empty line,
stripped — unlike the aitunnel/openai variant it has no code-fence check. -/
def hf_firstNonEmpty (lines : List String) : Option String :=
  lines.findSome? (fun line =>
    if pyStrip line ≠ "" then some (pyStrip line) else none)

/-- Normalization step of aitunnel_support.py (lines 119-132): scan for a
commit-type line, then for a non-empty non-fence line, else return the message
unchanged. -/
def aitunnel_extract (message : String) : String :=
  let lines := pySplit '\n' message
  match firstTypeLine lines with
  | some l => l
  | none =>
    match firstContentLine lines with
    | some l => l
    | none => message

/-- Normalization step of openai_support.py (lines 108-121); textually the same
algorithm as the aitunnel one, kept as its own definition because it is a
separate function in a separate source file. -/
def openai_extract (message : String) : String :=
  let lines := pySplit '\n' message
  match firstTypeLine lines with
  | some l => l
  | none =>
    match firstContentLine lines with
    | some l => l
    | none => message

/-- Normalization step of generate_commit_message_with_huggingface
(auto_commit.py lines 296-315): commit-type line, else first non-empty line
(fences included), else the message itself when it is non-empty and single
line, else `DEFAULT_COMMIT_MESSAGE`. -/
def huggingface_extract (message : String) : String :=
  let lines := pySplit '\n' message
  match hf_firstTypeLine lines with
  | some l => l
  | none =>
    match hf_firstNonEmpty lines with
    | some l => l
    | none =>
      if message ≠ "" ∧ message.data.contains '\n' = false then message
      else DEFAULT_COMMIT_MESSAGE

/-- A `configparser` DEFAULT section: a flat string-to-string mapping.
`cfgGet` below is Python `config['DEFAULT'].get(key, fallbackVal)`. -/
def Config := List (String × String)

/-- Python `config['DEFAULT'].get(key, fallbackVal)`: the stored value when the
key is present (even when that value is the empty string), the fallback
otherwise. -/
def cfgGet (cfg : Config) (key fallbackVal : String) : String :=
  match List.lookup key cfg with
  | some v => v
  | none => fallbackVal

/-- System-role message of the aitunnel adapter (aitunnel_support.py line
108). -/
def aitunnel_system_message : String :=
  "You are an expert at creating high-quality commit messages in Conventional Commits format. Your messages must be informative, specific, and understandable for both developers and AI systems. Always use the format type(scope): description with specific details of changes."

/-- The aitunnel user prompt f-string (aitunnel_support.py lines 66-94) with
`status` and the possibly-truncated `diff` substituted. -/
def aitunnel_prompt (status diff : String) : String :=
  "Analyze the git changes and create a brief but informative commit message in Conventional Commits format.\n\nGit Status:\n"
    ++ status
    ++ "\n\nGit Diff:\n"
    ++ diff
    ++ "\n\nMessage Requirements:\n1. Format: type(scope): brief description\n2. Type: feat, fix, docs, style, refactor, test, chore\n3. Scope: module/component that changed (optional but recommended)\n4. Description: what exactly changed and why (max 50 characters)\n\nGood Examples:\n- feat(auth): add OAuth2 authentication flow\n- fix(api): resolve timeout error in user endpoint\n- docs(readme): update installation instructions\n- refactor(core): optimize database query performance\n- style(ui): improve button spacing and colors\n\nImportant:\n- Be specific: what changed, not just \"update code\"\n- Use scope for grouping related changes\n- Write in English\n- Avoid generic phrases like \"update\", \"fix\", \"change\"\n- Specify the exact functionality or issue\n\nReturn only the commit message, without additional explanations."

/-- System-role message of the openai adapter (openai_support.py line 97). -/
def openai_system_message : String :=
  "Ты эксперт по созданию качественных сообщений коммитов в формате Conventional Commits. Твои сообщения должны быть информативными, конкретными и понятными как для разработчиков, так и для AI-систем. Всегда используй формат type(scope): описание с конкретными деталями изменений."

/-- The openai user prompt f-string (openai_support.py lines 58-86) with
`status` and the possibly-truncated `diff` substituted. -/
def openai_prompt (status diff : String) : String :=
  "Проанализируй изменения в git и создай краткое, но информативное сообщение коммита в формате Conventional Commits.\n\nСтатус изменений:\n"
    ++ status
    ++ "\n\nИзменения (diff):\n"
    ++ diff
    ++ "\n\nТребования к сообщению:\n1. Формат: type(scope): краткое описание\n2. Тип (type): feat, fix, docs, style, refactor, test, chore\n3. Область (scope): модуль/компонент, который изменился (опционально, но желательно)\n4. Описание: что именно изменилось и зачем (максимум 50 символов)\n\nПримеры хороших сообщений:\n- feat(auth): add OAuth2 authentication flow\n- fix(api): resolve timeout error in user endpoint\n- docs(readme): update installation instructions\n- refactor(core): optimize database query performance\n- style(ui): improve button spacing and colors\n\nВажно:\n- Будь конкретным: что изменилось, а не просто \"update code\"\n- Используй scope для группировки изменений\n- Пиши на английском языке\n- Избегай общих фраз типа \"update\", \"fix\", \"change\"\n- Указывай конкретную функциональность или проблему\n\nВерни только сообщение коммита, без дополнительных объяснений."

/-- System prompt of the huggingface adapter (auto_commit.py line 250). -/
def hf_system_message : String :=
  "You are a helpful AI assistant that specializes in creating conventional commit messages."

/-- The huggingface user prompt f-string (auto_commit.py lines 251-267): note
that it embeds only `diff[:500]` of the (already size-limited) diff, followed
by a literal ellipsis. -/
def hf_user_prompt (status diff : String) : String :=
  "Generate a commit message for the following changes:\n\nGit Status:\n"
    ++ status
    ++ "\n\nGit Diff (partial):\n"
    ++ pyTake diff 500
    ++ "...\n\nInstructions:\n- Create a single-line commit message in format: 'type(scope): message'\n- Choose 'type' from: feat, fix, docs, style, refactor, test, chore\n- Focus on WHAT changed and WHY\n- Keep it under 72 characters\n- Be specific and descriptive\n\nFormat your response as just the commit message text without explanations.\n"

/-- The huggingface payload `inputs` field (auto_commit.py line 271). -/
def hf_inputs (status diff : String) : String :=
  "<s>[INST] " ++ hf_system_message ++ " [/INST]</s>\n<s>[INST] "
    ++ hf_user_prompt status diff ++ " [/INST]"

/-- The truncation marker appended when the diff exceeds `max_diff_size`
(identical in all three adapters). -/
def TRUNCATION_MARKER : String := "\n... (truncated)"

/-- Observable outcome of the phase of an adapter that runs before its network
call.  `request body` means control reaches the network call and `body` is the
claim-relevant text going out: the user-role prompt for aitunnel/openai, the
`inputs` field for huggingface (the remaining payload fields — model id,
bearer token header, max-tokens and sampling parameters — carry no
claim-relevant data).  `exited` models `sys.exit`, and `raised` models an
exception escaping the adapter. -/
inductive PreOutcome where
  | returned (msg : String)
  | request (body : String)
  | exited (code : Nat)
  | raised (err : String)
deriving DecidableEq

/-- Result of the adapter's single network call, as the adapter observes it
from inside its `try` block: either any failure (timeout, connection error,
non-2xx status, malformed JSON, missing response fields — all surface as
exceptions caught by the same handlers) or a successfully extracted message
content string. -/
inductive NetOutcome where
  | failure
  | success (content : String)
deriving DecidableEq

/-- Phase of `generate_commit_message_with_aitunnel` (aitunnel_support.py
lines 48-113) up to the network call, on the OpenAI-SDK path: token guard,
config lookups, `int(...)` of `max_diff_size` (outside any try/except, so a
non-numeric value raises), diff truncation and prompt construction. -/
def generate_commit_message_with_aitunnel_pre
    (diff status : String) (cfg : Config) : PreOutcome :=
  let token := cfgGet cfg "aitunnel_token" ""
  if token = "" then .returned DEFAULT_COMMIT_MESSAGE
  else
    match pyInt (cfgGet cfg "max_diff_size" "5000") with
    | none => .raised "ValueError"
    | some max_size =>
      let diff2 :=
        if (diff.data.length : Int) > max_size then
          pyTake diff max_size ++ TRUNCATION_MARKER
        else diff
      .request (aitunnel_prompt status diff2)

/-- `generate_commit_message_with_aitunnel` in full: the pre-phase composed
with the try/except around the network call (lines 98-135) — any network-phase
failure yields the fallback message, success normalizes the stripped content.
The non-SDK HTTP branch (lines 136-186) has the same observable behavior under
this network abstraction. -/
def generate_commit_message_with_aitunnel
    (diff status : String) (cfg : Config) (net : NetOutcome) : PreOutcome :=
  match generate_commit_message_with_aitunnel_pre diff status cfg with
  | .request _ =>
    match net with
    | .failure => .returned DEFAULT_COMMIT_MESSAGE
    | .success content => .returned (aitunnel_extract (pyStrip content))
  | o => o

/-- Phase of `generate_commit_message_with_openai` (openai_support.py lines
46-86) up to the network call: same structure as the aitunnel adapter, with the
`openai_token` key, no base-url/model lookups affecting the body, and the
Russian prompt template. -/
def generate_commit_message_with_openai_pre
    (diff status : String) (cfg : Config) : PreOutcome :=
  let token := cfgGet cfg "openai_token" ""
  if token = "" then .returned DEFAULT_COMMIT_MESSAGE
  else
    match pyInt (cfgGet cfg "max_diff_size" "5000") with
    | none => .raised "ValueError"
    | some max_size =>
      let diff2 :=
        if (diff.data.length : Int) > max_size then
          pyTake diff max_size ++ TRUNCATION_MARKER
        else diff
      .request (openai_prompt status diff2)

/-- `generate_commit_message_with_openai` in full (try/except of lines 89-124;
the HTTP branch of lines 125-175 behaves identically under this network
abstraction). -/
def generate_commit_message_with_openai
    (diff status : String) (cfg : Config) (net : NetOutcome) : PreOutcome :=
  match generate_commit_message_with_openai_pre diff status cfg with
  | .request _ =>
    match net with
    | .failure => .returned DEFAULT_COMMIT_MESSAGE
    | .success content => .returned (openai_extract (pyStrip content))
  | o => o

/-- Network outcome for the huggingface adapter: `failure` for any exception
inside its try block; otherwise the parsed JSON either is a non-empty list
whose first element yields `generated_text` (with `.get` default `""`), or has
some other shape (`successOther`). -/
inductive HFNetOutcome where
  | failure
  | successList (generated : String)
  | successOther
deriving DecidableEq

/-- Phase of `generate_commit_message_with_huggingface` (auto_commit.py lines
230-278) up to the network call.  On a missing token it returns the fallback
only when `--test` or `--get-message` is among the process arguments and
otherwise calls `sys.exit(1)`; then `int(max_diff_size)` (outside the try
block), truncation, and the `inputs` payload construction. -/
def generate_commit_message_with_huggingface_pre
    (diff status : String) (cfg : Config) (argv : List String) : PreOutcome :=
  let token := cfgGet cfg "huggingface_token" ""
  if token = "" then
    if argv.contains "--test" || argv.contains "--get-message" then
      .returned DEFAULT_COMMIT_MESSAGE
    else .exited 1
  else
    match pyInt (cfgGet cfg "max_diff_size" "5000") with
    | none => .raised "ValueError"
    | some max_size =>
      let diff2 :=
        if (diff.data.length : Int) > max_size then
          pyTake diff max_size ++ TRUNCATION_MARKER
        else diff
      .request (hf_inputs status diff2)

/-- Cleanup applied by the huggingface adapter before scanning
(auto_commit.py lines 290-294): strip, remove `</s>` markers, strip again. -/
def hf_clean (generated : String) : String :=
  pyStrip (pyRemoveEndMarkers (pyStrip generated))

/-- `generate_commit_message_with_huggingface` in full (try/except of lines
280-318): network failure and non-list JSON both end in the fallback message; a
non-empty list response is cleaned and normalized. -/
def generate_commit_message_with_huggingface
    (diff status : String) (cfg : Config) (argv : List String)
    (net : HFNetOutcome) : PreOutcome :=
  match generate_commit_message_with_huggingface_pre diff status cfg argv with
  | .request _ =>
    match net with
    | .failure => .returned DEFAULT_COMMIT_MESSAGE
    | .successOther => .returned DEFAULT_COMMIT_MESSAGE
    | .successList generated => .returned (huggingface_extract (hf_clean generated))
  | o => o

/-- Which provider adapter the dispatcher hands the generation to. -/
inductive ProviderCall where
  | aitunnel
  | openai
  | huggingface
deriving DecidableEq

/-- Decision taken by the dispatcher: an immediate return value (no adapter
invoked at all), or a call into one adapter, recording whether a
module-not-installed warning was logged on the way. -/
inductive GenDecision where
  | immediate (msg : String)
  | adapter (p : ProviderCall) (warned : Bool)
deriving DecidableEq

/-- `generate_message_only` (auto_commit.py lines 392-429).  `status` and
`diff` stand for the values returned by the git collaborators
(`get_git_status()` / `get_git_diff()`, both stripped, so emptiness is the
Python falsiness test); `aits` / `ops` are the module-level
`AITUNNEL_SUPPORT` / `OPENAI_SUPPORT` import flags. -/
def generate_message_only (status diff : String) (cfg : Config)
    (aits ops : Bool) : GenDecision :=
  if status = "" then .immediate DEFAULT_COMMIT_MESSAGE
  else if diff = "" then .immediate DEFAULT_COMMIT_MESSAGE
  else
    let provider := cfgGet cfg "api_provider" "aitunnel"
    if pyLower provider = "aitunnel" ∧ aits = true then .adapter .aitunnel false
    else if pyLower provider = "openai" ∧ ops = true then .adapter .openai false
    else
      .adapter .huggingface
        (decide ((pyLower provider = "aitunnel" ∧ aits = false) ∨
                 (pyLower provider = "openai" ∧ ops = false)))

/-- A substring test used only to state counterexamples: `pat` occurs
contiguously in the list. -/
def containsSub (pat : List Char) : List Char → Bool
  | [] => pat.isEmpty
  | x :: xs => List.isPrefixOf pat (x :: xs) || containsSub pat xs

/-- `strContains s pat`: `pat` occurs as a contiguous substring of `s`. -/
def strContains (s pat : String) : Bool :=
  containsSub pat.data s.data

/-- Projects the request body out of a pre-phase outcome. -/
def requestBodyOf : PreOutcome → Option String
  | .request b => some b
  | _ => none

example : pyStrip "  feat: x \n" = "feat: x" := by decide
example : pySplit '\n' "a\nb\n" = ["a", "b", ""] := by decide
example : pyInt "5000" = some 5000 := by decide
example : pyInt " -42 " = some (-42) := by decide
example : pyInt "many" = none := by decide
example : pyTake "abcdef" 4 = "abcd" := by decide
example : pyTake "abcdef" (-2) = "abcd" := by decide
example : aitunnel_extract "```\nSome text\nfeat(a): b" = "feat(a): b" := by decide
example : aitunnel_extract "```\nupdate the readme" = "update the readme" := by decide
example : huggingface_extract "```\nupdate the readme" = "```" := by decide
example : aitunnel_extract "" = "" := by decide
example : huggingface_extract "" = DEFAULT_COMMIT_MESSAGE := by decide
example : pyRemoveEndMarkers "a</s>b" = "ab" := by decide

/-! ### Helper lemmas about the line scanners -/

theorem findSome?_append_of_none {α β : Type} (f : α → Option β) :
    ∀ (l1 l2 : List α), (∀ a ∈ l1, f a = none) →
      (l1 ++ l2).findSome? f = l2.findSome? f
  | [], _, _ => rfl
  | x :: xs, l2, h => by
    have hx : f x = none := h x (by simp)
    simp only [List.cons_append, List.findSome?, hx]
    exact findSome?_append_of_none f xs l2 (fun a ha => h a (by simp [ha]))

theorem findSome?_eq_none_of {α β : Type} (f : α → Option β) :
    ∀ (l : List α), (∀ a ∈ l, f a = none) → l.findSome? f = none
  | [], _ => rfl
  | x :: xs, h => by
    have hx : f x = none := h x (by simp)
    simp only [List.findSome?, hx]
    exact findSome?_eq_none_of f xs (fun a ha => h a (by simp [ha]))

theorem pySplitAux_no_sep (c : Char) :
    ∀ (l : List Char), l.contains c = false → pySplitAux c l = [l]
  | [], _ => rfl
  | x :: xs, h => by
    have h2 : c ≠ x ∧ xs.contains c = false := by
      simpa [List.contains_cons, Bool.or_eq_false_iff, beq_eq_false_iff_ne] using h
    have hx : ¬ (x = c) := fun he => h2.1 he.symm
    have hxs : xs.contains c = false := h2.2
    simp [pySplitAux, pySplitAux_no_sep c xs hxs, hx]

theorem pySplit_single (s : String) (h : s.data.contains '\n' = false) :
    pySplit '\n' s = [s] := by
  unfold pySplit
  rw [pySplitAux_no_sep '\n' s.data h]
  cases s
  rfl

theorem startsWithCommitType_ne_empty {s : String}
    (h : startsWithCommitType s = true) : s ≠ "" := by
  intro h0
  rw [h0] at h
  exact absurd h (by decide)

/-- Core fact shared by several claims: when the lines of `message` split into
a block `pre` with no commit-type line, then a line whose stripped form starts
with a commit type, all three normalization routines return that stripped
line. -/
theorem extracts_of_first_type_line (message : String)
    (pre post : List String) (line : String)
    (hsplit : pySplit '\n' message = pre ++ line :: post)
    (hpre : ∀ l ∈ pre, startsWithCommitType (pyStrip l) = false)
    (hline : startsWithCommitType (pyStrip line) = true) :
    aitunnel_extract message = pyStrip line ∧
    openai_extract message = pyStrip line ∧
    huggingface_extract message = pyStrip line := by
  have hne : pyStrip line ≠ "" := startsWithCommitType_ne_empty hline
  have hft : firstTypeLine (pre ++ line :: post) = some (pyStrip line) := by
    unfold firstTypeLine
    rw [findSome?_append_of_none _ pre (line :: post)
      (fun a ha => by simp [hpre a ha])]
    simp [List.findSome?, hline]
  have hhf : hf_firstTypeLine (pre ++ line :: post) = some (pyStrip line) := by
    unfold hf_firstTypeLine
    rw [findSome?_append_of_none _ pre (line :: post)
      (fun a ha => by simp [hpre a ha])]
    simp [List.findSome?, hline, hne]
  refine ⟨?_, ?_, ?_⟩
  · simp only [aitunnel_extract, hsplit, hft]
  · simp only [openai_extract, hsplit, hft]
  · simp only [huggingface_extract, hsplit, hhf]

/-- Claim C1: for every raw response text containing at least one line whose
whitespace-stripped form begins with one of the seven fixed type prefixes
(feat, fix, docs, style, refactor, test, chore), the normalization step of
every adapter (aitunnel, openai, huggingface) returns the first such line in
original line order, stripped of surrounding whitespace, regardless of any
preceding blank or code-fenced lines (the lines before the match are
arbitrary non-matching lines here). -/
theorem claim_C1_first_type_line_wins (message : String)
    (pre post : List String) (line : String)
    (hsplit : pySplit '\n' message = pre ++ line :: post)
    (hpre : ∀ l ∈ pre, startsWithCommitType (pyStrip l) = false)
    (hline : startsWithCommitType (pyStrip line) = true) :
    aitunnel_extract message = pyStrip line ∧
    openai_extract message = pyStrip line ∧
    huggingface_extract message = pyStrip line :=
  extracts_of_first_type_line message pre post line hsplit hpre hline

/-- Witness for C1 at a concrete response with a code fence, a blank line and
an explanation line before the conventional-commit line. -/
theorem claim_C1_first_type_line_wins_witness :
    aitunnel_extract "```\n\nHere it is:\n feat(core): add login \nfix: other"
        = "feat(core): add login" ∧
    openai_extract "```\n\nHere it is:\n feat(core): add login \nfix: other"
        = "feat(core): add login" ∧
    huggingface_extract "```\n\nHere it is:\n feat(core): add login \nfix: other"
        = "feat(core): add login" := by
  have h := claim_C1_first_type_line_wins
    "```\n\nHere it is:\n feat(core): add login \nfix: other"
    ["```", "", "Here it is:"] ["fix: other"] " feat(core): add login "
    (by decide) (by decide) (by decide)
  have hstrip : pyStrip " feat(core): add login " = "feat(core): add login" := by decide
  exact ⟨hstrip ▸ h.1, hstrip ▸ h.2.1, hstrip ▸ h.2.2⟩

/-- Claim C9: prefix matching in the normalization step is plain
string-prefix matching on the stripped line with no structural validation —
any single-line message whose stripped form merely begins with the character
sequence of one of the seven type words (for example one starting with
"testing", "stylesheet" or "feature", with no colon at all) is accepted and
returned on the primary success path by all three adapters. -/
theorem claim_C9_plain_string_matching (line : String)
    (hnl : line.data.contains '\n' = false)
    (h : startsWithCommitType (pyStrip line) = true) :
    aitunnel_extract line = pyStrip line ∧
    openai_extract line = pyStrip line ∧
    huggingface_extract line = pyStrip line :=
  extracts_of_first_type_line line [] [] line
    (by rw [pySplit_single line hnl]; rfl) (by simp) h

/-- Witness for C9: "testing the waters" and "stylesheet tweak" contain no
colon and are not of the shape type(scope): description, yet they start with
the character sequences "test" and "style" and are returned by the primary
success path of all three adapters. -/
theorem claim_C9_plain_string_matching_witness :
    ("testing the waters").data.contains ':' = false ∧
    ("stylesheet tweak").data.contains ':' = false ∧
    pyStrip "testing the waters" = "testing the waters" ∧
    pyStrip "stylesheet tweak" = "stylesheet tweak" ∧
    aitunnel_extract "testing the waters" = pyStrip "testing the waters" ∧
    openai_extract "testing the waters" = pyStrip "testing the waters" ∧
    huggingface_extract "testing the waters" = pyStrip "testing the waters" ∧
    aitunnel_extract "stylesheet tweak" = pyStrip "stylesheet tweak" := by
  have h1 := claim_C9_plain_string_matching "testing the waters" (by decide) (by decide)
  have h2 := claim_C9_plain_string_matching "stylesheet tweak" (by decide) (by decide)
  exact ⟨by decide, by decide, by decide, by decide, h1.1, h1.2.1, h1.2.2, h2.1⟩

/-- Counterexample for claim C3 as stated: in the response
"```\nupdate the readme" no line starts with a commit type and
"update the readme" is the first (indeed only) non-empty line not starting
with a code-fence marker, so the claim demands that every adapter return
"update the readme"; the huggingface normalization returns "```" instead,
because its second loop has no code-fence check. -/
theorem claim_C3_counterexample :
    firstTypeLine (pySplit '\n' "```\nupdate the readme") = none ∧
    firstContentLine (pySplit '\n' "```\nupdate the readme")
      = some "update the readme" ∧
    huggingface_extract "```\nupdate the readme" = "```" ∧
    ("```" : String) ≠ "update the readme" := by decide

/-- Claim C3 as amended: with no commit-type line present, the aitunnel and
openai normalization returns the first line that is non-empty and not a code
fence (stripped), while the huggingface normalization returns the first
non-empty line (stripped) whether or not it is a code fence. -/
theorem claim_C3_first_content_line (message : String)
    (hNoType : ∀ l ∈ pySplit '\n' message,
      startsWithCommitType (pyStrip l) = false) :
    (∀ (pre post : List String) (line : String),
       pySplit '\n' message = pre ++ line :: post →
       (∀ l ∈ pre, pyStrip l = "" ∨ isFence (pyStrip l) = true) →
       pyStrip line ≠ "" → isFence (pyStrip line) = false →
       aitunnel_extract message = pyStrip line ∧
       openai_extract message = pyStrip line) ∧
    (∀ (pre post : List String) (line : String),
       pySplit '\n' message = pre ++ line :: post →
       (∀ l ∈ pre, pyStrip l = "") →
       pyStrip line ≠ "" →
       huggingface_extract message = pyStrip line) := by
  have hft : firstTypeLine (pySplit '\n' message) = none :=
    findSome?_eq_none_of _ _ (fun a ha => by simp [hNoType a ha])
  have hhft : hf_firstTypeLine (pySplit '\n' message) = none :=
    findSome?_eq_none_of _ _ (fun a ha => by simp [hNoType a ha])
  constructor
  · intro pre post line hsplit hpre hne hnf
    have hfc : firstContentLine (pre ++ line :: post) = some (pyStrip line) := by
      unfold firstContentLine
      rw [findSome?_append_of_none _ pre (line :: post)
        (fun a ha => by rcases hpre a ha with h | h <;> simp [h])]
      simp [List.findSome?, hne, hnf]
    constructor
    · simp only [aitunnel_extract, hsplit, hsplit ▸ hft, hfc]
    · simp only [openai_extract, hsplit, hsplit ▸ hft, hfc]
  · intro pre post line hsplit hpre hne
    have hfc : hf_firstNonEmpty (pre ++ line :: post) = some (pyStrip line) := by
      unfold hf_firstNonEmpty
      rw [findSome?_append_of_none _ pre (line :: post)
        (fun a ha => by simp [hpre a ha])]
      simp [List.findSome?, hne]
    simp only [huggingface_extract, hsplit, hsplit ▸ hhft, hfc]

/-- Witness for the amended C3 on the counterexample input: the
aitunnel/openai normalization skips the fence line and returns
"update the readme", while the huggingface normalization returns the fence
line "```". -/
theorem claim_C3_first_content_line_witness :
    aitunnel_extract "```\nupdate the readme" = pyStrip "update the readme" ∧
    openai_extract "```\nupdate the readme" = pyStrip "update the readme" ∧
    huggingface_extract "```\nupdate the readme" = pyStrip "```" ∧
    pyStrip "update the readme" = "update the readme" ∧
    pyStrip "```" = "```" := by
  have h := claim_C3_first_content_line "```\nupdate the readme" (by decide)
  have h1 := h.1 ["```"] [] "update the readme" (by decide) (by decide)
    (by decide) (by decide)
  have h2 := h.2 [] ["update the readme"] "```" (by decide) (by decide)
    (by decide)
  exact ⟨h1.1, h1.2, h2, by decide, by decide⟩

/-- Counterexample for claim C4 as stated: for a whitespace-only generated
text, the claim demands that the normalization of every adapter return the
trimmed raw text, i.e. the empty string, "never substituting the fixed
fallback message"; the huggingface adapter returns the fixed fallback message
"chore: automatic changes commit" instead (auto_commit.py lines 308-315). -/
theorem claim_C4_counterexample :
    generate_commit_message_with_huggingface "d" "M f"
        [("huggingface_token", "t")] [] (.successList "  \n ")
      = .returned DEFAULT_COMMIT_MESSAGE ∧
    DEFAULT_COMMIT_MESSAGE ≠ "" := by decide

/-- Claim C4 as amended: when no line qualifies under the prefix rule or the
non-empty/non-fence rule, the aitunnel and openai normalization returns the
entire (already trimmed) message unchanged — the empty string for
whitespace-only input — and never raises (the extraction functions are total);
the huggingface normalization instead returns the first non-empty line when
one exists (even a code fence, see C3) and returns the fixed fallback message
when its cleaned input is empty, as happens for whitespace-only responses. -/
theorem claim_C4_last_resort (message : String)
    (hNoType : ∀ l ∈ pySplit '\n' message,
      startsWithCommitType (pyStrip l) = false)
    (hNoContent : ∀ l ∈ pySplit '\n' message,
      pyStrip l = "" ∨ isFence (pyStrip l) = true) :
    aitunnel_extract message = message ∧
    openai_extract message = message ∧
    huggingface_extract "" = DEFAULT_COMMIT_MESSAGE ∧
    (∀ generated, hf_clean generated = "" →
       huggingface_extract (hf_clean generated) = DEFAULT_COMMIT_MESSAGE) := by
  have hft : firstTypeLine (pySplit '\n' message) = none :=
    findSome?_eq_none_of _ _ (fun a ha => by simp [hNoType a ha])
  have hfc : firstContentLine (pySplit '\n' message) = none :=
    findSome?_eq_none_of _ _
      (fun a ha => by rcases hNoContent a ha with h | h <;> simp [h])
  refine ⟨?_, ?_, by decide, ?_⟩
  · simp only [aitunnel_extract, hft, hfc]
  · simp only [openai_extract, hft, hfc]
  · intro generated h
    rw [h]
    decide

/-- Witness for the amended C4: a message of fences and blanks is returned
unchanged by the aitunnel/openai normalization, and the huggingface adapter
maps the cleaned-to-empty response "  </s> " to the fallback message. -/
theorem claim_C4_last_resort_witness :
    aitunnel_extract "```\n   \n ```python" = "```\n   \n ```python" ∧
    openai_extract "```\n   \n ```python" = "```\n   \n ```python" ∧
    huggingface_extract "" = DEFAULT_COMMIT_MESSAGE ∧
    hf_clean "  </s> " = "" ∧
    huggingface_extract (hf_clean "  </s> ") = DEFAULT_COMMIT_MESSAGE := by
  have h := claim_C4_last_resort "```\n   \n ```python" (by decide) (by decide)
  exact ⟨h.1, h.2.1, h.2.2.1, by decide, h.2.2.2 "  </s> " (by decide)⟩

/-- Counterexample for claim C2 as stated: with an empty huggingface token and
a process argument vector containing neither "--test" nor "--get-message",
the huggingface adapter terminates the process with exit code 1
(auto_commit.py line 238) instead of returning the fallback message. -/
theorem claim_C2_counterexample :
    generate_commit_message_with_huggingface_pre "d" "M f"
        [("huggingface_token", "")] [] = .exited 1 ∧
    PreOutcome.exited 1 ≠ .returned DEFAULT_COMMIT_MESSAGE := by decide

/-- Claim C2 as amended: with an empty or absent token, the aitunnel and
openai adapters return exactly the fallback message before any network call is
reached (the pre-phase ends in `returned`, never `request`); the huggingface
adapter does so only when the process arguments contain "--test" or
"--get-message", and otherwise terminates the process with exit code 1 —
likewise without any network call. -/
theorem claim_C2_missing_token (diff status : String) (cfg : Config)
    (argv : List String) :
    (cfgGet cfg "aitunnel_token" "" = "" →
       generate_commit_message_with_aitunnel_pre diff status cfg
         = .returned DEFAULT_COMMIT_MESSAGE) ∧
    (cfgGet cfg "openai_token" "" = "" →
       generate_commit_message_with_openai_pre diff status cfg
         = .returned DEFAULT_COMMIT_MESSAGE) ∧
    (cfgGet cfg "huggingface_token" "" = "" →
       (argv.contains "--test" || argv.contains "--get-message") = true →
       generate_commit_message_with_huggingface_pre diff status cfg argv
         = .returned DEFAULT_COMMIT_MESSAGE) ∧
    (cfgGet cfg "huggingface_token" "" = "" →
       (argv.contains "--test" || argv.contains "--get-message") = false →
       generate_commit_message_with_huggingface_pre diff status cfg argv
         = .exited 1) := by
  refine ⟨fun h => ?_, fun h => ?_, fun h hargv => ?_, fun h hargv => ?_⟩
  · simp [generate_commit_message_with_aitunnel_pre, h]
  · simp [generate_commit_message_with_openai_pre, h]
  · unfold generate_commit_message_with_huggingface_pre
    rw [h]
    simp only [hargv]
    simp
  · unfold generate_commit_message_with_huggingface_pre
    rw [h]
    simp only [hargv]
    simp

/-- Witness for the amended C2 at a configuration with no token entries at
all (every token key resolves to the empty string). -/
theorem claim_C2_missing_token_witness :
    generate_commit_message_with_aitunnel_pre "d" "M f" []
      = .returned DEFAULT_COMMIT_MESSAGE ∧
    generate_commit_message_with_openai_pre "d" "M f" []
      = .returned DEFAULT_COMMIT_MESSAGE ∧
    generate_commit_message_with_huggingface_pre "d" "M f" [] ["--get-message"]
      = .returned DEFAULT_COMMIT_MESSAGE ∧
    generate_commit_message_with_huggingface_pre "d" "M f" [] ["-c"]
      = .exited 1 := by
  have h1 := claim_C2_missing_token "d" "M f" [] ["--get-message"]
  have h2 := claim_C2_missing_token "d" "M f" [] ["-c"]
  exact ⟨h1.1 rfl, h1.2.1 rfl, h1.2.2.1 rfl (by decide), h2.2.2.2 rfl (by decide)⟩

/-- Claim C7: whenever the git status text is empty, or the diff text is empty
(whatever the status), the dispatcher `generate_message_only` returns the
fixed fallback message immediately; the `immediate` decision constructor
records that no provider adapter is invoked at all. -/
theorem claim_C7_empty_short_circuit (status diff : String) (cfg : Config)
    (aits ops : Bool) (h : status = "" ∨ diff = "") :
    generate_message_only status diff cfg aits ops
      = .immediate DEFAULT_COMMIT_MESSAGE := by
  rcases h with h | h
  · simp [generate_message_only, h]
  · subst h
    by_cases hs : status = "" <;> simp [generate_message_only, hs]

/-- Witness for C7: empty status with a non-empty diff, and non-empty status
with an empty diff, both short-circuit to the fallback message. -/
theorem claim_C7_empty_short_circuit_witness :
    generate_message_only "" "some diff" [("api_provider", "openai")] true true
      = .immediate DEFAULT_COMMIT_MESSAGE ∧
    generate_message_only "M f" "" [("api_provider", "openai")] true true
      = .immediate DEFAULT_COMMIT_MESSAGE :=
  ⟨claim_C7_empty_short_circuit "" "some diff" [("api_provider", "openai")]
      true true (Or.inl rfl),
   claim_C7_empty_short_circuit "M f" "" [("api_provider", "openai")]
      true true (Or.inr rfl)⟩

/-- Claim C8: for non-empty diff and status, when the configured provider name
compares case-insensitively equal to "openai" (resp. "aitunnel") but that
adapter's optional runtime dependency is unavailable, the dispatcher warns and
invokes the huggingface fallback adapter instead; when the named adapter is
available it is the one invoked, with no warning. -/
theorem claim_C8_unavailable_adapter_fallback (status diff : String)
    (cfg : Config) (aits ops : Bool)
    (hs : status ≠ "") (hd : diff ≠ "") :
    (pyLower (cfgGet cfg "api_provider" "aitunnel") = "openai" →
       (ops = false → generate_message_only status diff cfg aits ops
          = .adapter .huggingface true) ∧
       (ops = true → generate_message_only status diff cfg aits ops
          = .adapter .openai false)) ∧
    (pyLower (cfgGet cfg "api_provider" "aitunnel") = "aitunnel" →
       (aits = false → generate_message_only status diff cfg aits ops
          = .adapter .huggingface true) ∧
       (aits = true → generate_message_only status diff cfg aits ops
          = .adapter .aitunnel false)) := by
  constructor
  · intro hp
    constructor <;> intro hflag <;>
      simp [generate_message_only, hs, hd, hp, hflag]
  · intro hp
    constructor <;> intro hflag <;>
      simp [generate_message_only, hs, hd, hp, hflag]

/-- Witness for C8: the four dispatcher scenarios at concrete configurations,
including the mixed-case provider name "OpenAI". -/
theorem claim_C8_unavailable_adapter_fallback_witness :
    generate_message_only "M f" "d" [("api_provider", "OpenAI")] true false
      = .adapter .huggingface true ∧
    generate_message_only "M f" "d" [("api_provider", "openai")] false true
      = .adapter .openai false ∧
    generate_message_only "M f" "d" [("api_provider", "AITUNNEL")] false true
      = .adapter .huggingface true ∧
    generate_message_only "M f" "d" [("api_provider", "aitunnel")] true false
      = .adapter .aitunnel false := by
  have h1 := claim_C8_unavailable_adapter_fallback "M f" "d"
    [("api_provider", "OpenAI")] true false (by decide) (by decide)
  have h2 := claim_C8_unavailable_adapter_fallback "M f" "d"
    [("api_provider", "openai")] false true (by decide) (by decide)
  have h3 := claim_C8_unavailable_adapter_fallback "M f" "d"
    [("api_provider", "AITUNNEL")] false true (by decide) (by decide)
  have h4 := claim_C8_unavailable_adapter_fallback "M f" "d"
    [("api_provider", "aitunnel")] true false (by decide) (by decide)
  exact ⟨(h1.1 (by decide)).1 rfl, (h2.1 (by decide)).2 rfl,
         (h3.2 (by decide)).1 rfl, (h4.2 (by decide)).2 rfl⟩

/-- Claim C10: for every configured provider name whose lower-case form is
neither "aitunnel" nor "openai" — "huggingface", but also unrecognized names
like "gemini" or the empty string — the dispatcher routes generation to the
huggingface adapter with the warning flag false: no warning and no error is
emitted for unrecognized names. -/
theorem claim_C10_unrecognized_provider_silent (status diff : String)
    (cfg : Config) (aits ops : Bool)
    (hs : status ≠ "") (hd : diff ≠ "")
    (hA : pyLower (cfgGet cfg "api_provider" "aitunnel") ≠ "aitunnel")
    (hO : pyLower (cfgGet cfg "api_provider" "aitunnel") ≠ "openai") :
    generate_message_only status diff cfg aits ops
      = .adapter .huggingface false := by
  simp [generate_message_only, hs, hd, hA, hO]

/-- Witness for C10 at the unrecognized provider names "gemini" and "", and
at the recognized-but-default name "huggingface". -/
theorem claim_C10_unrecognized_provider_silent_witness :
    generate_message_only "M f" "d" [("api_provider", "gemini")] true true
      = .adapter .huggingface false ∧
    generate_message_only "M f" "d" [("api_provider", "")] true true
      = .adapter .huggingface false ∧
    generate_message_only "M f" "d" [("api_provider", "huggingface")] true true
      = .adapter .huggingface false :=
  ⟨claim_C10_unrecognized_provider_silent "M f" "d" [("api_provider", "gemini")]
      true true (by decide) (by decide) (by decide) (by decide),
   claim_C10_unrecognized_provider_silent "M f" "d" [("api_provider", "")]
      true true (by decide) (by decide) (by decide) (by decide),
   claim_C10_unrecognized_provider_silent "M f" "d"
      [("api_provider", "huggingface")]
      true true (by decide) (by decide) (by decide) (by decide)⟩

/-- A 502-character diff used by the C5 counterexample: letters cycling with
period 13, with the character at index 500 replaced by a tilde that occurs
nowhere in the huggingface prompt template. -/
def bigDiff : String :=
  String.mk ((List.range 502).map
    (fun i => if i = 500 then '~' else Char.ofNat (97 + i % 13)))

/-- Configuration used by the C5 counterexample: a configured huggingface
token and a diff-size limit of 501 characters. -/
def cfgC5 : Config := [("huggingface_token", "t"), ("max_diff_size", "501")]

set_option maxRecDepth 100000 in
/-- Counterexample for claim C5 as stated: for this 502-character diff and the
configured limit 501, the huggingface adapter's outgoing request body does
not contain the diff truncated to the limit followed by the truncation marker
— it embeds only the first 500 characters of the truncated diff followed by
"..." (auto_commit.py line 257), so the 501st character of the diff never
reaches the request body at all. -/
theorem claim_C5_counterexample :
    ((bigDiff.data.length : Int) > 501) ∧
    pyInt (cfgGet cfgC5 "max_diff_size" "5000") = some 501 ∧
    (requestBodyOf
        (generate_commit_message_with_huggingface_pre bigDiff "M file.txt" cfgC5 [])).map
      (fun b => strContains b (pyTake bigDiff 501 ++ TRUNCATION_MARKER))
      = some false := by decide

/-- Claim C5 as amended: for every diff longer than the configured limit, the
aitunnel and openai adapters embed in their outgoing user prompt, in place of
the diff, exactly the diff truncated to the limit followed by the marker
"\n... (truncated)"; the huggingface adapter truncates the diff the same way
but its request body then embeds only the first 500 characters of that
truncated diff followed by "..." (so for limits beyond roughly 500 the
diff-truncated-to-the-limit never appears in its body, per the
counterexample). -/
theorem claim_C5_truncated_diff_embedded (diff status : String) (cfg : Config)
    (argv : List String) (m : Int)
    (hm : pyInt (cfgGet cfg "max_diff_size" "5000") = some m)
    (hlen : (diff.data.length : Int) > m) :
    (cfgGet cfg "aitunnel_token" "" ≠ "" →
       generate_commit_message_with_aitunnel_pre diff status cfg
         = .request (aitunnel_prompt status
             (pyTake diff m ++ TRUNCATION_MARKER))) ∧
    (cfgGet cfg "openai_token" "" ≠ "" →
       generate_commit_message_with_openai_pre diff status cfg
         = .request (openai_prompt status
             (pyTake diff m ++ TRUNCATION_MARKER))) ∧
    (cfgGet cfg "huggingface_token" "" ≠ "" →
       generate_commit_message_with_huggingface_pre diff status cfg argv
         = .request (hf_inputs status
             (pyTake diff m ++ TRUNCATION_MARKER))) := by
  refine ⟨fun h => ?_, fun h => ?_, fun h => ?_⟩
  · unfold generate_commit_message_with_aitunnel_pre
    rw [if_neg h, hm]
    dsimp only
    rw [if_pos hlen]
  · unfold generate_commit_message_with_openai_pre
    rw [if_neg h, hm]
    dsimp only
    rw [if_pos hlen]
  · unfold generate_commit_message_with_huggingface_pre
    rw [if_neg h, hm]
    dsimp only
    rw [if_pos hlen]

/-- Witness for the amended C5: limit 4, six-character diff "abcdef"; every
adapter's pre-phase reaches its network call with the request body built from
"abcd" plus the truncation marker (and, for huggingface, the additional
[:500] slice, which here keeps the whole truncated diff). -/
theorem claim_C5_truncated_diff_embedded_witness :
    generate_commit_message_with_aitunnel_pre "abcdef" "M f"
        [("aitunnel_token", "t"), ("openai_token", "t"),
         ("huggingface_token", "t"), ("max_diff_size", "4")]
      = .request (aitunnel_prompt "M f" (pyTake "abcdef" 4 ++ TRUNCATION_MARKER)) ∧
    generate_commit_message_with_openai_pre "abcdef" "M f"
        [("aitunnel_token", "t"), ("openai_token", "t"),
         ("huggingface_token", "t"), ("max_diff_size", "4")]
      = .request (openai_prompt "M f" (pyTake "abcdef" 4 ++ TRUNCATION_MARKER)) ∧
    generate_commit_message_with_huggingface_pre "abcdef" "M f"
        [("aitunnel_token", "t"), ("openai_token", "t"),
         ("huggingface_token", "t"), ("max_diff_size", "4")] []
      = .request (hf_inputs "M f" (pyTake "abcdef" 4 ++ TRUNCATION_MARKER)) ∧
    pyTake "abcdef" 4 ++ TRUNCATION_MARKER = "abcd\n... (truncated)" := by
  have h := claim_C5_truncated_diff_embedded "abcdef" "M f"
    [("aitunnel_token", "t"), ("openai_token", "t"),
     ("huggingface_token", "t"), ("max_diff_size", "4")] [] 4
    (by decide) (by decide)
  exact ⟨h.1 (by decide), h.2.1 (by decide), h.2.2 (by decide), by decide⟩

/-- Counterexample for claim C6 as stated: a non-numeric `max_diff_size`
("many") makes `int(...)` raise a ValueError before the try block in all
three adapters (aitunnel_support.py line 60, openai_support.py line 52,
auto_commit.py line 241), so the exception escapes the adapter instead of
being caught and converted to the fallback message. -/
theorem claim_C6_counterexample :
    generate_commit_message_with_aitunnel "d" "M f"
        [("aitunnel_token", "t"), ("openai_token", "t"),
         ("huggingface_token", "t"), ("max_diff_size", "many")] .failure
      = .raised "ValueError" ∧
    generate_commit_message_with_openai "d" "M f"
        [("aitunnel_token", "t"), ("openai_token", "t"),
         ("huggingface_token", "t"), ("max_diff_size", "many")] .failure
      = .raised "ValueError" ∧
    generate_commit_message_with_huggingface "d" "M f"
        [("aitunnel_token", "t"), ("openai_token", "t"),
         ("huggingface_token", "t"), ("max_diff_size", "many")] [] .failure
      = .raised "ValueError" ∧
    PreOutcome.raised "ValueError" ≠ .returned DEFAULT_COMMIT_MESSAGE := by decide

/-- Claim C6 as amended: with a configured token and a numeric
`max_diff_size`, no exception escapes any adapter — every outcome is a
returned message — and every network-phase failure (timeout, network error,
malformed response, missing fields, all modelled by the failure network
outcome) is caught and converted to the fixed fallback message; but a
non-numeric `max_diff_size` raises an uncaught ValueError in all three
adapters, because the int() conversion precedes the try block. -/
theorem claim_C6_failures_caught (diff status : String) (cfg : Config)
    (argv : List String) (net : NetOutcome) (hnet : HFNetOutcome) (m : Int)
    (hm : pyInt (cfgGet cfg "max_diff_size" "5000") = some m)
    (hA : cfgGet cfg "aitunnel_token" "" ≠ "")
    (hO : cfgGet cfg "openai_token" "" ≠ "")
    (hH : cfgGet cfg "huggingface_token" "" ≠ "") :
    (∃ msg, generate_commit_message_with_aitunnel diff status cfg net
        = .returned msg) ∧
    (net = .failure → generate_commit_message_with_aitunnel diff status cfg net
        = .returned DEFAULT_COMMIT_MESSAGE) ∧
    (∃ msg, generate_commit_message_with_openai diff status cfg net
        = .returned msg) ∧
    (net = .failure → generate_commit_message_with_openai diff status cfg net
        = .returned DEFAULT_COMMIT_MESSAGE) ∧
    (∃ msg, generate_commit_message_with_huggingface diff status cfg argv hnet
        = .returned msg) ∧
    (hnet = .failure →
       generate_commit_message_with_huggingface diff status cfg argv hnet
        = .returned DEFAULT_COMMIT_MESSAGE) := by
  have hpa : ∃ b, generate_commit_message_with_aitunnel_pre diff status cfg
      = .request b := by
    unfold generate_commit_message_with_aitunnel_pre
    rw [hm]
    simp [hA]
  have hpo : ∃ b, generate_commit_message_with_openai_pre diff status cfg
      = .request b := by
    unfold generate_commit_message_with_openai_pre
    rw [hm]
    simp [hO]
  have hph : ∃ b, generate_commit_message_with_huggingface_pre diff status cfg argv
      = .request b := by
    unfold generate_commit_message_with_huggingface_pre
    rw [hm]
    simp [hH]
  obtain ⟨ba, hba⟩ := hpa
  obtain ⟨bo, hbo⟩ := hpo
  obtain ⟨bh, hbh⟩ := hph
  refine ⟨?_, ?_, ?_, ?_, ?_, ?_⟩
  · cases net <;>
      simp [generate_commit_message_with_aitunnel, hba]
  · intro h
    subst h
    simp [generate_commit_message_with_aitunnel, hba]
  · cases net <;>
      simp [generate_commit_message_with_openai, hbo]
  · intro h
    subst h
    simp [generate_commit_message_with_openai, hbo]
  · cases hnet <;>
      simp [generate_commit_message_with_huggingface, hbh]
  · intro h
    subst h
    simp [generate_commit_message_with_huggingface, hbh]

/-- Witness for the amended C6: a fully configured backend with network
failures in every adapter returns the fallback message everywhere. -/
theorem claim_C6_failures_caught_witness :
    generate_commit_message_with_aitunnel "d" "M f"
        [("aitunnel_token", "t"), ("openai_token", "t"),
         ("huggingface_token", "t")] .failure
      = .returned DEFAULT_COMMIT_MESSAGE ∧
    generate_commit_message_with_openai "d" "M f"
        [("aitunnel_token", "t"), ("openai_token", "t"),
         ("huggingface_token", "t")] .failure
      = .returned DEFAULT_COMMIT_MESSAGE ∧
    generate_commit_message_with_huggingface "d" "M f"
        [("aitunnel_token", "t"), ("openai_token", "t"),
         ("huggingface_token", "t")] [] .failure
      = .returned DEFAULT_COMMIT_MESSAGE := by
  have h := claim_C6_failures_caught "d" "M f"
    [("aitunnel_token", "t"), ("openai_token", "t"), ("huggingface_token", "t")]
    [] .failure .failure 5000 (by decide) (by decide) (by decide) (by decide)
  exact ⟨h.2.1 rfl, h.2.2.2.1 rfl, h.2.2.2.2.2 rfl⟩
